import Mathlib

/-!
# Verification of the ai-traffic-light detection-fusion-and-phase-scheduling engine

Shallow embedding of the adaptive traffic-signal controller: the Timing
Calculator, the lane-pair Phase Scheduler, the Stats Registry, the
Broadcaster, and the React frontend components (`Analytics`, `CameraView`,
`useWebSocket`, `ErrorBoundary`).

The backend engine (FastAPI `main.py`) is not part of the frontend sources;
its Timing Calculator, Phase Scheduler, Stats Registry and Broadcaster are
modelled from the specification (§4.3–§4.6).  The frontend components are
translated directly from the JavaScript/JSX sources.
-/

namespace TrafficLight

/-! ## Timing Calculator (spec §4.3) -/

/-- Configuration constants for the Timing Calculator.
Modelled from the spec: `current_config()` of §6 restricted to the fields
the Timing Calculator reads (backend `config.py` is not in the sources). -/
structure TimingConfig where
  base_time : ℚ
  vehicle_weight : ℚ
  person_weight : ℚ
  min_green : ℚ
  max_green : ℚ
  emergency_priority_time : ℚ
deriving DecidableEq

/-- The default constants of spec §4.3: `base_time=6`, `vehicle_weight=0.5`,
`person_weight=1.0`, `min_green=5`, `max_green=45`,
`emergency_priority_time=30`. -/
def defaultTimingConfig : TimingConfig :=
  { base_time := 6
    vehicle_weight := 1/2
    person_weight := 1
    min_green := 5
    max_green := 45
    emergency_priority_time := 30 }

/-- A per-lane, per-tick Detection Snapshot (spec §3): lane id, non-negative
vehicle and people counts, and the emergency flag. -/
structure DetectionSnapshot where
  lane_id : Fin 4
  vehicle_count : ℕ
  people_count : ℕ
  has_emergency_vehicle : Bool
deriving DecidableEq

/-- A derived Lane Plan (spec §3): bounded green time plus the emergency
override flag. -/
structure LanePlan where
  green_time_seconds : ℚ
  is_emergency_override : Bool
deriving DecidableEq

/-- Clamp `x` into the interval `[lo, hi]`. -/
def clamp (lo hi x : ℚ) : ℚ := max lo (min x hi)

/-- Modelled from the spec: the Timing Calculator of §4.3 (backend
`main.py` is not in the sources).  `green_time = clamp(base_time +
vehicles*vehicle_weight + people*person_weight, min_green, max_green)`;
an emergency vehicle instead yields `emergency_priority_time` directly,
bypassing the clamp, with `is_emergency_override = true`. -/
def calculateTiming (cfg : TimingConfig) (s : DetectionSnapshot) : LanePlan :=
  if s.has_emergency_vehicle then
    { green_time_seconds := cfg.emergency_priority_time
      is_emergency_override := true }
  else
    { green_time_seconds :=
        clamp cfg.min_green cfg.max_green
          (cfg.base_time + s.vehicle_count * cfg.vehicle_weight
            + s.people_count * cfg.person_weight)
      is_emergency_override := false }

/-! ## Phase Scheduler (spec §4.4) -/

/-- The two fixed, non-conflicting lane pairs (spec §3):
`Pair A = {lane0, lane2}`, `Pair B = {lane1, lane3}`. -/
inductive Pair where
  | A
  | B
deriving DecidableEq

/-- The opposite pair. -/
def Pair.other : Pair → Pair
  | .A => .B
  | .B => .A

/-- The GREEN/YELLOW sub-state of the active pair (spec §4.4). -/
inductive Phase where
  | GREEN
  | YELLOW
deriving DecidableEq

/-- Whether lane `i` belongs to pair `P`: pair A holds the even lanes
{0, 2}, pair B the odd lanes {1, 3}. -/
def laneInPair (P : Pair) (i : Fin 4) : Bool :=
  match P with
  | .A => i.val % 2 == 0
  | .B => i.val % 2 == 1

/-- The Phase State (spec §3): active pair, phase, remaining seconds of
the phase, and per-lane remaining seconds. -/
structure PhaseState where
  active_pair : Pair
  phase : Phase
  phase_remaining_seconds : ℕ
  lane_remaining_seconds : Fin 4 → ℕ

/-- Scheduler constants (spec §4.4 / §6): fixed yellow clearance and the
emergency priority green duration, in whole seconds. -/
structure SchedConfig where
  yellow_duration : ℕ
  emergency_priority_time : ℕ
deriving DecidableEq

/-- The default scheduler constants: `yellow_duration = 2`,
`emergency_priority_time = 30`. -/
def defaultSchedConfig : SchedConfig :=
  { yellow_duration := 2, emergency_priority_time := 30 }

/-- The green duration of a pair: the maximum of its two lanes' green
times (spec §4.4: the controller must not starve the heavier lane). -/
def pairGreen (plans : Fin 4 → ℕ) : Pair → ℕ
  | .A => max (plans 0) (plans 2)
  | .B => max (plans 1) (plans 3)

/-- Modelled from the spec: one tick-advance of the Phase Scheduler state
machine of §4.4 (backend `main.py` is not in the sources).  `plans i` is
lane `i`'s computed green time in whole seconds and `emerg i` its
emergency-override flag for this tick.  While `phase_remaining_seconds`
is positive the tick counts it down by one second, together with the
active lanes' remaining times; when it reaches 0, `GREEN(P)` enters
`YELLOW(P)` for the fixed `yellow_duration`, and `YELLOW(P)` enters
`GREEN(other P)` — with the emergency priority duration when a lane of
the incoming pair reports an override, honouring the mandatory yellow
clearance first. -/
def tick (cfg : SchedConfig) (plans : Fin 4 → ℕ) (emerg : Fin 4 → Bool)
    (s : PhaseState) : PhaseState :=
  if s.phase_remaining_seconds = 0 then
    match s.phase with
    | .GREEN =>
        { active_pair := s.active_pair
          phase := .YELLOW
          phase_remaining_seconds := cfg.yellow_duration
          lane_remaining_seconds := fun _ => 0 }
    | .YELLOW =>
        let next := s.active_pair.other
        let emergencyNext : Bool :=
          (List.finRange 4).any fun i => laneInPair next i && emerg i
        let dur : ℕ :=
          if emergencyNext then cfg.emergency_priority_time
          else pairGreen plans next
        { active_pair := next
          phase := .GREEN
          phase_remaining_seconds := dur
          lane_remaining_seconds := fun i =>
            if laneInPair next i then
              if emergencyNext then cfg.emergency_priority_time else plans i
            else 0 }
  else
    { active_pair := s.active_pair
      phase := s.phase
      phase_remaining_seconds := s.phase_remaining_seconds - 1
      lane_remaining_seconds := fun i =>
        if laneInPair s.active_pair i then s.lane_remaining_seconds i - 1
        else s.lane_remaining_seconds i }

/-- Modelled from the spec: the initial state of §4.4 — `GREEN(A)` with
`phase_remaining_seconds` the computed green time for pair A. -/
def initialState (plans : Fin 4 → ℕ) : PhaseState :=
  { active_pair := .A
    phase := .GREEN
    phase_remaining_seconds := pairGreen plans .A
    lane_remaining_seconds := fun i =>
      if laneInPair .A i then plans i else 0 }

/-- The Phase States reachable from the initial state by tick-advance
steps, over arbitrary per-tick lane plans and emergency flags. -/
inductive Reachable (cfg : SchedConfig) : PhaseState → Prop where
  | init (plans : Fin 4 → ℕ) : Reachable cfg (initialState plans)
  | step (plans : Fin 4 → ℕ) (emerg : Fin 4 → Bool) (s : PhaseState) :
      Reachable cfg s → Reachable cfg (tick cfg plans emerg s)

/-- One tick-advance preserves: every lane outside the active pair has
`lane_remaining_seconds = 0`. -/
theorem tick_inactive_zero (cfg : SchedConfig) (plans : Fin 4 → ℕ)
    (emerg : Fin 4 → Bool) (s : PhaseState)
    (h : ∀ i, laneInPair s.active_pair i = false →
      s.lane_remaining_seconds i = 0) :
    ∀ i, laneInPair (tick cfg plans emerg s).active_pair i = false →
      (tick cfg plans emerg s).lane_remaining_seconds i = 0 := by
  intro i
  unfold tick
  by_cases h0 : s.phase_remaining_seconds = 0
  · cases hp : s.phase with
    | GREEN => simp [h0]
    | YELLOW =>
        simp only [h0, hp, if_true]
        intro hi
        simp [hi]
  · simp only [h0, if_neg h0]
    intro hi
    simp [hi, h i hi]

/-! ## Broadcaster (spec §4.6) -/

/-- The Broadcaster's mutable registry: the list of registered observers
(identified by their connection ids) and the `active_connections`
counter. -/
structure BroadcastState where
  observers : List ℕ
  active_connections : ℕ
deriving DecidableEq

/-- One delivery pass over the remaining observers: a failing send
unregisters the observer and decrements the counter; a successful send
keeps the observer and records the delivery; the pass never aborts. -/
def publishGo (fails : ℕ → Bool) : List ℕ → ℕ → List ℕ × ℕ × List ℕ
  | [], conns => ([], conns, [])
  | o :: rest, conns =>
      if fails o then
        publishGo fails rest (conns - 1)
      else
        let r := publishGo fails rest conns
        (o :: r.1, r.2.1, o :: r.2.2)

/-- Modelled from the spec: `publish(state)` of §4.6 (backend `main.py`
is not in the sources).  Attempts delivery to every registered observer;
each failing send triggers `unregister` and decrements
`active_connections` without aborting the remaining deliveries.  Returns
the updated registry and the list of observers that received the
state. -/
def publish (fails : ℕ → Bool) (st : BroadcastState) :
    BroadcastState × List ℕ :=
  let r := publishGo fails st.observers st.active_connections
  ({ observers := r.1, active_connections := r.2.1 }, r.2.2)

/-- `publishGo` keeps exactly the non-failing observers, delivers to
exactly those, and subtracts one connection per failing observer. -/
theorem publishGo_spec (fails : ℕ → Bool) (os : List ℕ) (conns : ℕ) :
    publishGo fails os conns
      = (os.filter (fun o => !fails o),
         conns - (os.filter fails).length,
         os.filter (fun o => !fails o)) := by
  induction os generalizing conns with
  | nil => simp [publishGo]
  | cons o rest ih =>
      by_cases hf : fails o
      · simp [publishGo, hf, ih, Nat.sub_sub, Nat.add_comm]
      · simp [publishGo, hf, ih]

/-! ## Stats Registry (spec §4.5) -/

/-- The Stats Registry (spec §3): monotone detection counters, the
incremental running average of processing latency with its sample count,
and the `active_connections` gauge. -/
structure Stats where
  total_frames_processed : ℕ
  total_vehicles_detected : ℕ
  total_people_detected : ℕ
  emergency_vehicles_detected : ℕ
  average_processing_time : ℚ
  latency_samples : ℕ
  active_connections : ℕ
deriving DecidableEq

/-- The operations writers perform on the Stats Registry (spec §4.5):
atomic counter increments, `record_latency` (incremental mean), and
connection lifecycle events. -/
inductive StatsOp where
  | incFrames (d : ℕ)
  | incVehicles (d : ℕ)
  | incPeople (d : ℕ)
  | incEmergency (d : ℕ)
  | recordLatency (x : ℚ)
  | connect
  | disconnect
deriving DecidableEq

/-- Modelled from the spec: the effect of one Stats Registry operation
(§4.5; backend `main.py` is not in the sources).  `record_latency`
maintains the running average via an incremental mean, not a stored
sample list; `disconnect` is the only operation that decreases any
field. -/
def applyOp (st : Stats) : StatsOp → Stats
  | .incFrames d => { st with total_frames_processed :=
      st.total_frames_processed + d }
  | .incVehicles d => { st with total_vehicles_detected :=
      st.total_vehicles_detected + d }
  | .incPeople d => { st with total_people_detected :=
      st.total_people_detected + d }
  | .incEmergency d => { st with emergency_vehicles_detected :=
      st.emergency_vehicles_detected + d }
  | .recordLatency x =>
      { st with
        latency_samples := st.latency_samples + 1
        average_processing_time :=
          st.average_processing_time
            + (x - st.average_processing_time) / (st.latency_samples + 1) }
  | .connect => { st with active_connections := st.active_connections + 1 }
  | .disconnect => { st with active_connections :=
      st.active_connections - 1 }

/-- A single operation never decreases any of the four detection
counters. -/
theorem applyOp_counters_mono (st : Stats) (op : StatsOp) :
    st.total_frames_processed ≤ (applyOp st op).total_frames_processed
    ∧ st.total_vehicles_detected ≤ (applyOp st op).total_vehicles_detected
    ∧ st.total_people_detected ≤ (applyOp st op).total_people_detected
    ∧ st.emergency_vehicles_detected
        ≤ (applyOp st op).emergency_vehicles_detected := by
  cases op <;> simp [applyOp]

/-! ## Frontend Analytics component (frontend/src/components/Analytics.jsx) -/

/-- The seven fields of the stats wire contract (spec §6), the fields the
`/stats` response carries. -/
def statsWireFields : List String :=
  ["total_frames_processed", "total_vehicles_detected",
   "total_people_detected", "emergency_vehicles_detected",
   "average_processing_time", "uptime_seconds", "active_connections"]

/-- One value rendered by the Analytics stats panels: a number or a
literal text such as "N/A". -/
inductive RenderItem where
  | num (q : ℚ)
  | txt (s : String)
deriving DecidableEq

/-- JavaScript `x.toFixed(2)` on a rational, kept as the rounded
rational. -/
def toFixed2 (q : ℚ) : ℚ := ((q * 100 + 1 / 2).floor : ℚ) / 100

/-- Translated from `Analytics.jsx`: the stat values the component
dereferences from the fetched `stats` object and renders, in source
order — the four summary cards, the System Performance panel
(`average_processing_time * 1000` fixed to 2 decimals, `uptime_seconds`
floored to minutes, `active_connections`), and the Detection Summary
panel (total detections, vehicle/person ratio or "N/A", emergency
alerts).  The stats object is modelled as a field-name lookup. -/
def analyticsStatsItems (s : String → ℚ) : List RenderItem :=
  [.num (s "total_frames_processed"),
   .num (s "total_vehicles_detected"),
   .num (s "total_people_detected"),
   .num (s "emergency_vehicles_detected"),
   .num (toFixed2 (s "average_processing_time" * 1000)),
   .num ((s "uptime_seconds" / 60).floor : ℚ),
   .num (s "active_connections"),
   .num (s "total_vehicles_detected" + s "total_people_detected"),
   if 0 < s "total_people_detected" then
     .num (toFixed2 (s "total_vehicles_detected" / s "total_people_detected"))
   else .txt "N/A",
   .num (s "emergency_vehicles_detected")]

/-! ## Frontend useWebSocket hook (frontend/src/hooks/useWebSocket.js) -/

/-- The connection status values of the hook. -/
inductive ConnStatus where
  | disconnected
  | connecting
  | connected
  | reconnecting
  | errored
  | failed
deriving DecidableEq

/-- The hook state relevant to reconnection: `reconnectAttemptsRef` and
`connectionStatus`. -/
structure WSState where
  reconnectAttempts : ℕ
  status : ConnStatus
deriving DecidableEq

/-- `maxReconnectAttempts = 10` (useWebSocket.js line 13). -/
def maxReconnectAttempts : ℕ := 10

/-- `reconnectDelay = 3000` milliseconds (useWebSocket.js line 14). -/
def reconnectDelay : ℕ := 3000

/-- Translated from `ws.onopen`: mark connected and reset the attempt
counter to 0. -/
def onOpen (_s : WSState) : WSState :=
  { reconnectAttempts := 0, status := .connected }

/-- Translated from `ws.onclose`: below `maxReconnectAttempts`, increment
the counter, mark reconnecting, and schedule one reconnect after
`reconnectDelay` milliseconds (the returned delay); otherwise mark
failed and schedule nothing. -/
def onClose (s : WSState) : WSState × Option ℕ :=
  if s.reconnectAttempts < maxReconnectAttempts then
    ({ reconnectAttempts := s.reconnectAttempts + 1, status := .reconnecting },
     some reconnectDelay)
  else
    ({ s with status := .failed }, none)

/-- Translated from `ws.onerror`: record the error status. -/
def onError (s : WSState) : WSState :=
  { s with status := .errored }

/-- The WebSocket events the hook's handlers react to. -/
inductive WSEvent where
  | opened
  | closed
  | errored
deriving DecidableEq

/-- One handler invocation: the next hook state plus the delay of the
reconnect it schedules, if any. -/
def wsStep (s : WSState) : WSEvent → WSState × Option ℕ
  | .opened => (onOpen s, none)
  | .closed => onClose s
  | .errored => (onError s, none)

/-- The hook state after a sequence of WebSocket events. -/
def wsRun (s : WSState) (evs : List WSEvent) : WSState :=
  evs.foldl (fun st e => (wsStep st e).1) s

/-- The initial hook state: counter 0, disconnected. -/
def wsInit : WSState :=
  { reconnectAttempts := 0, status := .disconnected }

/-- One handler invocation keeps the attempt counter within the
maximum. -/
theorem wsStep_attempts_le (s : WSState) (e : WSEvent)
    (h : s.reconnectAttempts ≤ maxReconnectAttempts) :
    (wsStep s e).1.reconnectAttempts ≤ maxReconnectAttempts := by
  cases e with
  | opened => simp [wsStep, onOpen, maxReconnectAttempts]
  | closed =>
      simp only [wsStep, onClose]
      split
      · next hlt =>
          show s.reconnectAttempts + 1 ≤ maxReconnectAttempts
          simp only [maxReconnectAttempts] at hlt ⊢
          omega
      · simpa using h
  | errored => simpa [wsStep, onError] using h

/-! ## Frontend CameraView component (frontend/src/components/CameraView.jsx) -/

/-- A JavaScript value as it appears in a parsed WebSocket message. -/
inductive JsVal where
  | undef
  | nullV
  | bool (b : Bool)
  | num (q : ℚ)
  | str (s : String)
  | arr (xs : List JsVal)

/-- JavaScript truthiness: `undefined`, `null`, `false`, `0` and the
empty string are falsy; arrays are always truthy. -/
def JsVal.truthy : JsVal → Bool
  | .undef => false
  | .nullV => false
  | .bool b => b
  | .num q => q != 0
  | .str s => s != ""
  | .arr _ => true

/-- JavaScript `v || d`: the left operand when truthy, else the
default. -/
def jsOr (v d : JsVal) : JsVal := if v.truthy then v else d

/-- The per-message CameraView state slice set by the `useEffect` of
lines 30–49. -/
structure CameraViewState where
  frames : JsVal
  vehicle_counts : JsVal
  people_counts : JsVal
  emergency_vehicles : JsVal
  timings : JsVal
  light_status : JsVal
  phase : JsVal
  phase_remaining : JsVal
  lane_remaining : JsVal

/-- Translated from CameraView.jsx lines 30–49: the state written on
receipt of one parsed WebSocket message `data` (a JavaScript object
modelled as a field-name lookup), each field guarded by `||` with its
fixed default. -/
def cameraViewUpdate (data : String → JsVal) : CameraViewState :=
  { frames := jsOr (data "frames") (.arr [.str "", .str "", .str "", .str ""])
    vehicle_counts := jsOr (data "vehicle_counts")
      (.arr [.num 0, .num 0, .num 0, .num 0])
    people_counts := jsOr (data "people_counts")
      (.arr [.num 0, .num 0, .num 0, .num 0])
    emergency_vehicles := jsOr (data "emergency_vehicles")
      (.arr [.bool false, .bool false, .bool false, .bool false])
    timings := jsOr (data "timings") (.arr [.num 0, .num 0, .num 0, .num 0])
    light_status := jsOr (data "light_status")
      (.arr [.str "red", .str "red", .str "red", .str "red"])
    phase := jsOr (data "phase") (.str "green")
    phase_remaining := jsOr (data "phase_remaining") (.num 0)
    lane_remaining := jsOr (data "lane_remaining")
      (.arr [.num 0, .num 0, .num 0, .num 0]) }

/-! ## Frontend ErrorBoundary component (frontend/src/components/ErrorBoundary.jsx) -/

/-- A value stored in the ErrorBoundary's state object: a boolean, the
initial `null`, or an opaque error object (identified by a number). -/
inductive EBVal where
  | bool (b : Bool)
  | nullV
  | errV (e : ℕ)
deriving DecidableEq

/-- The component's `this.state`, a JavaScript object modelled as a
field-name lookup. -/
def EBState := String → Option EBVal

/-- Translated from the constructor:
`this.state = { hasError: false, error: null, errorInfo: null }`. -/
def ebInitState : EBState := fun k =>
  if k = "hasError" then some (.bool false)
  else if k = "error" then some .nullV
  else if k = "errorInfo" then some .nullV
  else none

/-- Translated from `getDerivedStateFromError(error)`: the partial state
update object `{ hasError: true }`. -/
def getDerivedStateFromError (_e : ℕ) : EBState := fun k =>
  if k = "hasError" then some (.bool true) else none

/-- React merges a partial state update object into the current state. -/
def mergeState (s upd : EBState) : EBState := fun k =>
  match upd k with
  | some v => some v
  | none => s k

/-- Translated from `componentDidCatch(error, errorInfo)`: the direct
assignment `this.state = { error, errorInfo }` replaces the whole state
object with one holding exactly those two fields. -/
def componentDidCatch (e info : ℕ) (_s : EBState) : EBState := fun k =>
  if k = "error" then some (.errV e)
  else if k = "errorInfo" then some (.errV info)
  else none

/-- The state after React catches an error: the constructor state, merged
with the `getDerivedStateFromError` update, then overwritten by
`componentDidCatch`. -/
def errorBoundaryAfterCatch (e info : ℕ) : EBState :=
  componentDidCatch e info
    (mergeState ebInitState (getDerivedStateFromError e))

end TrafficLight

open TrafficLight

/-- C3: in every reachable Phase State, exactly one pair (A or B) is the
active pair, `phase_remaining_seconds ≥ 0`, and every lane outside the
active pair has `lane_remaining_seconds = 0`; the invariant holds at the
initial state and is preserved by every tick-advance step. -/
theorem phase_state_invariant (cfg : SchedConfig) (s : PhaseState)
    (h : Reachable cfg s) :
    ((s.active_pair = Pair.A) ↔ ¬(s.active_pair = Pair.B))
    ∧ 0 ≤ s.phase_remaining_seconds
    ∧ ∀ i, laneInPair s.active_pair i = false →
        s.lane_remaining_seconds i = 0 := by
  induction h with
  | init plans =>
      refine ⟨by simp [initialState], Nat.zero_le _, ?_⟩
      intro i hi
      simp only [initialState] at hi ⊢
      simp [hi]
  | step plans emerg s hs ih =>
      refine ⟨?_, Nat.zero_le _, tick_inactive_zero cfg plans emerg s ih.2.2⟩
      cases (tick cfg plans emerg s).active_pair <;> simp

/-- Witness for C3 at the initial state for constant plans of 10 seconds,
and at the state one tick later: pair A is the unique active pair and
lane 1 (pair B) reports 0 remaining seconds. -/
theorem phase_state_invariant_witness :
    ((initialState fun _ => 10).active_pair = Pair.A
      ↔ ¬((initialState fun _ => 10).active_pair = Pair.B))
    ∧ (tick defaultSchedConfig (fun _ => 10) (fun _ => false)
        (initialState fun _ => 10)).lane_remaining_seconds 1 = 0 :=
  ⟨(phase_state_invariant defaultSchedConfig _ (Reachable.init _)).1,
   (phase_state_invariant defaultSchedConfig _
      (Reachable.step (fun _ => 10) (fun _ => false) _ (Reachable.init _))).2.2
      1 (by decide)⟩

/-- C4: the only phase transitions of the tick-advance step are
`GREEN(P) → YELLOW(P)` and `YELLOW(P) → GREEN(other P)`, both occurring
exactly when `phase_remaining_seconds` has reached 0; every yellow phase
starts with the fixed `yellow_duration` (independent of the tick's lane
plans); and the machine is never terminal: every state has a successor. -/
theorem phase_transitions (cfg : SchedConfig) (plans : Fin 4 → ℕ)
    (emerg : Fin 4 → Bool) (s : PhaseState)
    (h : (tick cfg plans emerg s).phase ≠ s.phase
      ∨ (tick cfg plans emerg s).active_pair ≠ s.active_pair) :
    s.phase_remaining_seconds = 0
    ∧ ((s.phase = Phase.GREEN
          ∧ (tick cfg plans emerg s).phase = Phase.YELLOW
          ∧ (tick cfg plans emerg s).active_pair = s.active_pair
          ∧ (tick cfg plans emerg s).phase_remaining_seconds
              = cfg.yellow_duration)
        ∨ (s.phase = Phase.YELLOW
          ∧ (tick cfg plans emerg s).phase = Phase.GREEN
          ∧ (tick cfg plans emerg s).active_pair = s.active_pair.other))
    ∧ ∀ t : PhaseState, ∃ u, u = tick cfg plans emerg t := by
  by_cases h0 : s.phase_remaining_seconds = 0
  · refine ⟨h0, ?_, fun t => ⟨_, rfl⟩⟩
    cases hp : s.phase with
    | GREEN => left; simp [tick, h0, hp]
    | YELLOW => right; simp [tick, h0, hp]
  · exfalso
    simp [tick, h0] at h

/-- Witness for C4: from `GREEN(A)` with 0 seconds remaining, the tick
transitions to `YELLOW(A)` with the default 2-second yellow duration. -/
theorem phase_transitions_witness :
    (⟨Pair.A, Phase.GREEN, 0, fun _ => 0⟩ : PhaseState).phase_remaining_seconds
        = 0
    ∧ ((Phase.GREEN = Phase.GREEN
          ∧ (tick defaultSchedConfig (fun _ => 7) (fun _ => false)
              ⟨Pair.A, Phase.GREEN, 0, fun _ => 0⟩).phase = Phase.YELLOW
          ∧ (tick defaultSchedConfig (fun _ => 7) (fun _ => false)
              ⟨Pair.A, Phase.GREEN, 0, fun _ => 0⟩).active_pair = Pair.A
          ∧ (tick defaultSchedConfig (fun _ => 7) (fun _ => false)
              ⟨Pair.A, Phase.GREEN, 0, fun _ => 0⟩).phase_remaining_seconds
              = defaultSchedConfig.yellow_duration)
        ∨ (Phase.GREEN = Phase.YELLOW
          ∧ (tick defaultSchedConfig (fun _ => 7) (fun _ => false)
              ⟨Pair.A, Phase.GREEN, 0, fun _ => 0⟩).phase = Phase.GREEN
          ∧ (tick defaultSchedConfig (fun _ => 7) (fun _ => false)
              ⟨Pair.A, Phase.GREEN, 0, fun _ => 0⟩).active_pair = Pair.B))
    ∧ ∃ u, u = tick defaultSchedConfig (fun _ => 7) (fun _ => false)
        (initialState fun _ => 7) := by
  have h := phase_transitions defaultSchedConfig (fun _ => 7) (fun _ => false)
    ⟨Pair.A, Phase.GREEN, 0, fun _ => 0⟩ (Or.inl (by decide))
  exact ⟨h.1, h.2.1, h.2.2 _⟩

/-- C5: when the registry is consistent (`active_connections` equals the
number of registered observers), `publish` delivers the state to exactly
the observers whose sends succeed, unregisters exactly the failing ones,
and decrements `active_connections` by exactly the number of failures,
without aborting delivery to the rest. -/
theorem publish_prunes_failed (fails : ℕ → Bool) (st : BroadcastState)
    (h : st.active_connections = st.observers.length) :
    (publish fails st).2 = st.observers.filter (fun o => !fails o)
    ∧ (publish fails st).1.observers
        = st.observers.filter (fun o => !fails o)
    ∧ (publish fails st).1.active_connections
        = st.active_connections - (st.observers.filter fails).length
    ∧ (publish fails st).1.active_connections
        + (st.observers.filter fails).length = st.active_connections := by
  have hs := publishGo_spec fails st.observers st.active_connections
  refine ⟨by simp [publish, hs], by simp [publish, hs], by simp [publish, hs],
    ?_⟩
  simp only [publish, hs]
  rw [h]
  exact Nat.sub_add_cancel (List.length_filter_le _ _)

/-- Witness for C5: five observers, the send to observer 3 fails; after
`publish` the other four received the state and
`active_connections = 4`. -/
theorem publish_prunes_failed_witness :
    (publish (fun o => o == 3)
        { observers := [1, 2, 3, 4, 5], active_connections := 5 }).2
      = [1, 2, 4, 5]
    ∧ (publish (fun o => o == 3)
        { observers := [1, 2, 3, 4, 5], active_connections := 5
        }).1.active_connections = 4 := by
  have h := publish_prunes_failed (fun o => o == 3)
    { observers := [1, 2, 3, 4, 5], active_connections := 5 } rfl
  exact ⟨by rw [h.1]; rfl, by rw [h.2.2.1]; rfl⟩

/-- C6: across every sequence of Stats Registry operations the four
detection counters are monotonically non-decreasing, while
`active_connections` may decrease (a `disconnect` lowers it). -/
theorem stats_counters_monotone (st : Stats) (ops : List StatsOp) :
    (st.total_frames_processed
        ≤ (ops.foldl applyOp st).total_frames_processed
      ∧ st.total_vehicles_detected
        ≤ (ops.foldl applyOp st).total_vehicles_detected
      ∧ st.total_people_detected
        ≤ (ops.foldl applyOp st).total_people_detected
      ∧ st.emergency_vehicles_detected
        ≤ (ops.foldl applyOp st).emergency_vehicles_detected)
    ∧ ∃ (s : Stats) (op : StatsOp),
        (applyOp s op).active_connections < s.active_connections := by
  constructor
  · induction ops generalizing st with
    | nil => simp
    | cons op rest ih =>
        have h1 := applyOp_counters_mono st op
        have h2 := ih (applyOp st op)
        simp only [List.foldl_cons]
        exact ⟨le_trans h1.1 h2.1, le_trans h1.2.1 h2.2.1,
          le_trans h1.2.2.1 h2.2.2.1, le_trans h1.2.2.2 h2.2.2.2⟩
  · exact ⟨⟨0, 0, 0, 0, 0, 0, 1⟩, .disconnect, by simp [applyOp]⟩

/-- C7: the Analytics component reads only the seven fields of the stats
wire contract — its rendered items are unchanged when the stats object is
altered outside those fields — and each of the seven fields is rendered
(items 0–6 of the output display them in source order). -/
theorem analytics_reads_seven_fields :
    (∀ s₁ s₂ : String → ℚ, (∀ f ∈ statsWireFields, s₁ f = s₂ f) →
      analyticsStatsItems s₁ = analyticsStatsItems s₂)
    ∧ ∀ s : String → ℚ,
        (analyticsStatsItems s).get? 0
            = some (.num (s "total_frames_processed"))
        ∧ (analyticsStatsItems s).get? 1
            = some (.num (s "total_vehicles_detected"))
        ∧ (analyticsStatsItems s).get? 2
            = some (.num (s "total_people_detected"))
        ∧ (analyticsStatsItems s).get? 3
            = some (.num (s "emergency_vehicles_detected"))
        ∧ (analyticsStatsItems s).get? 4
            = some (.num (toFixed2 (s "average_processing_time" * 1000)))
        ∧ (analyticsStatsItems s).get? 5
            = some (.num ((s "uptime_seconds" / 60).floor : ℚ))
        ∧ (analyticsStatsItems s).get? 6
            = some (.num (s "active_connections")) := by
  constructor
  · intro s₁ s₂ h
    have h1 := h "total_frames_processed" (by simp [statsWireFields])
    have h2 := h "total_vehicles_detected" (by simp [statsWireFields])
    have h3 := h "total_people_detected" (by simp [statsWireFields])
    have h4 := h "emergency_vehicles_detected" (by simp [statsWireFields])
    have h5 := h "average_processing_time" (by simp [statsWireFields])
    have h6 := h "uptime_seconds" (by simp [statsWireFields])
    have h7 := h "active_connections" (by simp [statsWireFields])
    simp [analyticsStatsItems, h1, h2, h3, h4, h5, h6, h7]
  · intro s
    exact ⟨rfl, rfl, rfl, rfl, rfl, rfl, rfl⟩

/-- Witness for C7: a stats object that is 7 everywhere and one that is 7
on the seven contract fields but 99 elsewhere render identically, and the
first rendered item is the frame counter. -/
theorem analytics_reads_seven_fields_witness :
    analyticsStatsItems (fun _ => 7)
      = analyticsStatsItems
          (fun f => if f ∈ statsWireFields then 7 else 99)
    ∧ (analyticsStatsItems (fun _ => 7)).get? 0 = some (.num 7) :=
  ⟨analytics_reads_seven_fields.1 _ _ (fun f hf => by simp [hf]),
   (analytics_reads_seven_fields.2 (fun _ => 7)).1⟩

/-- C8: the reconnection counter never exceeds 10 over any event
sequence; a close below 10 attempts schedules exactly one reconnect after
the fixed 3000 ms delay, incrementing the counter; a close at 10
attempts sets the status to failed and schedules nothing; and a
successful open resets the counter to 0. -/
theorem websocket_reconnect_bounded :
    (∀ evs : List WSEvent, (wsRun wsInit evs).reconnectAttempts ≤ 10)
    ∧ (∀ s : WSState, s.reconnectAttempts < 10 →
        wsStep s .closed
          = ({ reconnectAttempts := s.reconnectAttempts + 1
               status := .reconnecting }, some 3000))
    ∧ (∀ s : WSState, ¬s.reconnectAttempts < 10 →
        wsStep s .closed = ({ s with status := .failed }, none))
    ∧ ∀ s : WSState, wsStep s .opened
        = ({ reconnectAttempts := 0, status := .connected }, none) := by
  refine ⟨?_, ?_, ?_, ?_⟩
  · intro evs
    have key : ∀ (l : List WSEvent) (s : WSState),
        s.reconnectAttempts ≤ maxReconnectAttempts →
        (wsRun s l).reconnectAttempts ≤ maxReconnectAttempts := by
      intro l
      induction l with
      | nil => intro s h; simpa [wsRun] using h
      | cons e rest ih =>
          intro s h
          simpa [wsRun] using ih _ (wsStep_attempts_le s e h)
    simpa [maxReconnectAttempts] using key evs wsInit (by simp [wsInit])
  · intro s h
    simp [wsStep, onClose, maxReconnectAttempts, reconnectDelay, h]
  · intro s h
    simp [wsStep, onClose, maxReconnectAttempts, h]
  · intro s
    simp [wsStep, onOpen]

/-- Witness for C8: a concrete event sequence stays within the bound; a
close at 9 attempts schedules the 10th reconnect after 3000 ms; a close
at 10 attempts fails without scheduling; an open resets the counter. -/
theorem websocket_reconnect_bounded_witness :
    (wsRun wsInit [.closed, .closed, .opened, .closed]).reconnectAttempts ≤ 10
    ∧ wsStep { reconnectAttempts := 9, status := .reconnecting } .closed
        = ({ reconnectAttempts := 10, status := .reconnecting }, some 3000)
    ∧ wsStep { reconnectAttempts := 10, status := .reconnecting } .closed
        = ({ reconnectAttempts := 10, status := .failed }, none)
    ∧ wsStep { reconnectAttempts := 4, status := .connecting } .opened
        = ({ reconnectAttempts := 0, status := .connected }, none) :=
  ⟨websocket_reconnect_bounded.1 _,
   websocket_reconnect_bounded.2.1 _ (by decide),
   websocket_reconnect_bounded.2.2.1 _ (by decide),
   websocket_reconnect_bounded.2.2.2 _⟩

/-- C9: for each field of the composed-state contract, a falsy (or
missing) value in the received message makes the CameraView update store
that field's fixed default — four empty strings for frames, `[0,0,0,0]`
for the count/timing/remaining arrays, four `false` for emergencies,
four `"red"` for light status, `"green"` for phase, `0` for phase
remaining — while a truthy value is stored exactly as received. -/
theorem camera_view_defaults (data : String → JsVal) :
    ((data "frames").truthy = false →
      (cameraViewUpdate data).frames
        = .arr [.str "", .str "", .str "", .str ""])
    ∧ ((data "frames").truthy = true →
      (cameraViewUpdate data).frames = data "frames")
    ∧ ((data "vehicle_counts").truthy = false →
      (cameraViewUpdate data).vehicle_counts
        = .arr [.num 0, .num 0, .num 0, .num 0])
    ∧ ((data "vehicle_counts").truthy = true →
      (cameraViewUpdate data).vehicle_counts = data "vehicle_counts")
    ∧ ((data "people_counts").truthy = false →
      (cameraViewUpdate data).people_counts
        = .arr [.num 0, .num 0, .num 0, .num 0])
    ∧ ((data "people_counts").truthy = true →
      (cameraViewUpdate data).people_counts = data "people_counts")
    ∧ ((data "emergency_vehicles").truthy = false →
      (cameraViewUpdate data).emergency_vehicles
        = .arr [.bool false, .bool false, .bool false, .bool false])
    ∧ ((data "emergency_vehicles").truthy = true →
      (cameraViewUpdate data).emergency_vehicles = data "emergency_vehicles")
    ∧ ((data "timings").truthy = false →
      (cameraViewUpdate data).timings
        = .arr [.num 0, .num 0, .num 0, .num 0])
    ∧ ((data "timings").truthy = true →
      (cameraViewUpdate data).timings = data "timings")
    ∧ ((data "light_status").truthy = false →
      (cameraViewUpdate data).light_status
        = .arr [.str "red", .str "red", .str "red", .str "red"])
    ∧ ((data "light_status").truthy = true →
      (cameraViewUpdate data).light_status = data "light_status")
    ∧ ((data "phase").truthy = false →
      (cameraViewUpdate data).phase = .str "green")
    ∧ ((data "phase").truthy = true →
      (cameraViewUpdate data).phase = data "phase")
    ∧ ((data "phase_remaining").truthy = false →
      (cameraViewUpdate data).phase_remaining = .num 0)
    ∧ ((data "phase_remaining").truthy = true →
      (cameraViewUpdate data).phase_remaining = data "phase_remaining")
    ∧ ((data "lane_remaining").truthy = false →
      (cameraViewUpdate data).lane_remaining
        = .arr [.num 0, .num 0, .num 0, .num 0])
    ∧ ((data "lane_remaining").truthy = true →
      (cameraViewUpdate data).lane_remaining = data "lane_remaining") := by
  refine ⟨?_, ?_, ?_, ?_, ?_, ?_, ?_, ?_, ?_, ?_, ?_, ?_, ?_, ?_, ?_, ?_,
    ?_, ?_⟩ <;>
    intro h <;> simp [cameraViewUpdate, jsOr, h]

/-- Witness for C9: an all-`undefined` message yields the frames default,
and a message whose phase is the string "yellow" stores it verbatim. -/
theorem camera_view_defaults_witness :
    (cameraViewUpdate fun _ => JsVal.undef).frames
      = JsVal.arr [.str "", .str "", .str "", .str ""]
    ∧ (cameraViewUpdate fun _ => JsVal.str "yellow").frames
      = JsVal.str "yellow" :=
  ⟨(camera_view_defaults _).1 rfl,
   (camera_view_defaults _).2.1 (by decide)⟩

/-- C10: `getDerivedStateFromError` returns exactly `{ hasError: true }`,
but after `componentDidCatch` runs (direct assignment of
`{ error, errorInfo }` to `this.state`), the component's state holds
exactly the fields `error` and `errorInfo` — every other field,
`hasError` included, is absent. -/
theorem error_boundary_state_replaced (e info : ℕ) :
    getDerivedStateFromError e "hasError" = some (.bool true)
    ∧ (∀ k, k ≠ "hasError" → getDerivedStateFromError e k = none)
    ∧ errorBoundaryAfterCatch e info "error" = some (.errV e)
    ∧ errorBoundaryAfterCatch e info "errorInfo" = some (.errV info)
    ∧ errorBoundaryAfterCatch e info "hasError" = none
    ∧ ∀ k, k ≠ "error" → k ≠ "errorInfo" →
        errorBoundaryAfterCatch e info k = none := by
  refine ⟨?_, ?_, ?_, ?_, ?_, ?_⟩
  · simp [getDerivedStateFromError]
  · intro k hk
    simp [getDerivedStateFromError, hk]
  · simp [errorBoundaryAfterCatch, componentDidCatch]
  · simp [errorBoundaryAfterCatch, componentDidCatch]
  · simp [errorBoundaryAfterCatch, componentDidCatch]
  · intro k h1 h2
    simp [errorBoundaryAfterCatch, componentDidCatch, h1, h2]

/-- Witness for C10 at error 1, errorInfo 2: the derived update sets
`hasError`, nothing else; the caught state keeps `error` and drops
`hasError`. -/
theorem error_boundary_state_replaced_witness :
    getDerivedStateFromError 1 "hasError" = some (.bool true)
    ∧ getDerivedStateFromError 1 "phase" = none
    ∧ errorBoundaryAfterCatch 1 2 "error" = some (.errV 1)
    ∧ errorBoundaryAfterCatch 1 2 "hasError" = none :=
  ⟨(error_boundary_state_replaced 1 2).1,
   (error_boundary_state_replaced 1 2).2.1 "phase" (by decide),
   (error_boundary_state_replaced 1 2).2.2.1,
   (error_boundary_state_replaced 1 2).2.2.2.2.2 "hasError" (by decide)
     (by decide)⟩

/-- C1: without an emergency vehicle, under the default configuration the
Timing Calculator returns `green_time = clamp(6 + 0.5*v + 1.0*p, 5, 45)`
(and no emergency override) for every vehicle count `v` and people count
`p`; in particular `v = 10`, `p = 2` yields `green_time = 13`. -/
theorem timing_default_formula (lane : Fin 4) (v p : ℕ) :
    calculateTiming defaultTimingConfig
        { lane_id := lane, vehicle_count := v, people_count := p
          has_emergency_vehicle := false }
      = { green_time_seconds := max 5 (min (6 + (1/2 : ℚ) * v + 1 * p) 45)
          is_emergency_override := false }
    ∧ (calculateTiming defaultTimingConfig
        { lane_id := lane, vehicle_count := 10, people_count := 2
          has_emergency_vehicle := false }).green_time_seconds = 13 := by
  constructor
  · simp [calculateTiming, defaultTimingConfig, clamp, mul_comm]
  · simp [calculateTiming, defaultTimingConfig, clamp]
    norm_num

/-- C2: with `has_emergency_vehicle = true` the Timing Calculator returns
`green_time = emergency_priority_time` and `is_emergency_override = true`
for every configuration and every pair of counts, bypassing the
`[min_green, max_green]` clamp entirely. -/
theorem timing_emergency_override (cfg : TimingConfig) (s : DetectionSnapshot)
    (h : s.has_emergency_vehicle = true) :
    calculateTiming cfg s
      = { green_time_seconds := cfg.emergency_priority_time
          is_emergency_override := true } := by
  simp [calculateTiming, h]

/-- Witness for C2: a configuration whose `emergency_priority_time = 100`
lies outside `[min_green, max_green] = [5, 45]`, yet the emergency result
is the unclamped 100 (and the default configuration yields 30). -/
theorem timing_emergency_override_witness :
    calculateTiming
        { base_time := 6, vehicle_weight := 1/2, person_weight := 1
          min_green := 5, max_green := 45, emergency_priority_time := 100 }
        { lane_id := 0, vehicle_count := 3, people_count := 4
          has_emergency_vehicle := true }
      = { green_time_seconds := 100, is_emergency_override := true }
    ∧ calculateTiming defaultTimingConfig
        { lane_id := 1, vehicle_count := 7, people_count := 0
          has_emergency_vehicle := true }
      = { green_time_seconds := 30, is_emergency_override := true } :=
  ⟨timing_emergency_override _ _ rfl, timing_emergency_override _ _ rfl⟩
